import Mathlib

/-!
Shallow embedding of the EmprendeVentaPos serverless handlers.

The repository consists of three Netlify-style request handlers:
`create-seller` (provision an auth account and upsert a seller profile),
`manage-seller` (list / update-password / delete sellers) and an
insight-generation handler (mock or live generative-language call).

Modelling conventions:
- JavaScript/JSON values are modelled by `Jval`.  JSON numbers are modelled
  as integers (no behaviour relevant to the handlers depends on fractional
  values); `Jval.jnull` stands for both JS `null` and `undefined`.
- The external network (`fetch` plus the response-body JSON parser of the
  runtime) is an oracle of type `Fetch`: a function from requests to either
  a response or a rejection message.  A response carries its raw text and
  the outcome of parsing that text as JSON.
- A handler is a pure function of the environment, the oracle and the
  inbound event; it returns the response together with the ordered list of
  outbound requests it issued.  An uncaught JS exception is an
  `Except.error` carrying the exception message.
- Inbound request bodies are a `null` body, a present empty string, or a
  present non-empty string given together with the outcome of `JSON.parse`
  on it (`EventBody`), since the handlers only ever branch on those.
-/

namespace EVPos

/-- Model of a JavaScript/JSON value as produced by `JSON.parse`.  Numbers
are modelled as integers; `jnull` stands for both `null` and `undefined`. -/
inductive Jval where
  | jnull
  | jbool (b : Bool)
  | jnum (n : Int)
  | jstr (s : String)
  | jarr (elems : List Jval)
  | jobj (fields : List (String × Jval))
deriving Repr

/-- First-match lookup of a key in an object's field list. -/
def jlookup : List (String × Jval) → String → Jval
  | [], _ => .jnull
  | (k, v) :: rest, key => if k == key then v else jlookup rest key

/-- JS truthiness of a value. -/
def Jval.truthy : Jval → Bool
  | .jnull => false
  | .jbool b => b
  | .jnum n => n != 0
  | .jstr s => s != ""
  | .jarr _ => true
  | .jobj _ => true

/-- Optional-chaining property access `v?.key`: `undefined` on anything
that is not an object with the key. -/
def jget (v : Jval) (key : String) : Jval :=
  match v with
  | .jobj fs => jlookup fs key
  | _ => .jnull

/-- Optional-chaining index access `v?.[i]`. -/
def jidx (v : Jval) (i : Nat) : Jval :=
  match v with
  | .jarr xs => xs.getD i .jnull
  | .jobj fs => jlookup fs (toString i)
  | _ => .jnull

/-- Plain property access `v.key`: throws a TypeError on `null`/`undefined`,
yields `undefined` on other non-objects. -/
def jdot (v : Jval) (key : String) : Except String Jval :=
  match v with
  | .jnull => .error ("TypeError: Cannot read properties of null (reading " ++ key ++ ")")
  | .jobj fs => .ok (jlookup fs key)
  | _ => .ok .jnull

/-- Destructuring `const { k1, k2 } = v`: throws on `null`/`undefined`. -/
def jdestructure2 (v : Jval) (k1 k2 : String) : Except String (Jval × Jval) :=
  match v with
  | .jnull => .error "TypeError: Cannot destructure properties of null"
  | _ => .ok (jget v k1, jget v k2)

/-- Destructuring of five properties; throws on `null`/`undefined`. -/
def jdestructure5 (v : Jval) (k1 k2 k3 k4 k5 : String) :
    Except String (Jval × Jval × Jval × Jval × Jval) :=
  match v with
  | .jnull => .error "TypeError: Cannot destructure properties of null"
  | _ => .ok (jget v k1, jget v k2, jget v k3, jget v k4, jget v k5)

mutual

/-- JS string coercion as used in template literals. -/
def jToString : Jval → String
  | .jnull => "null"
  | .jbool true => "true"
  | .jbool false => "false"
  | .jnum n => toString n
  | .jstr s => s
  | .jarr xs => jToStringList xs
  | .jobj _ => "[object Object]"
termination_by structural v => v

/-- Array-to-string: elements joined by commas, with `null`/`undefined`
elements rendered as the empty string (JS `Array.prototype.join`). -/
def jToStringList : List Jval → String
  | [] => ""
  | [.jnull] => ""
  | [x] => jToString x
  | .jnull :: y :: rest => "," ++ jToStringList (y :: rest)
  | x :: y :: rest => jToString x ++ "," ++ jToStringList (y :: rest)
termination_by structural l => l

end

/-- Lower-case hexadecimal digit. -/
def hexDigitChar (n : Nat) : Char :=
  if n < 10 then Char.ofNat (48 + n) else Char.ofNat (87 + n)

/-- JSON string escaping for `JSON.stringify`. -/
def jescapeChar (c : Char) : String :=
  if c == Char.ofNat 34 then "\\\""
  else if c == Char.ofNat 92 then "\\\\"
  else if c == Char.ofNat 10 then "\\n"
  else if c == Char.ofNat 13 then "\\r"
  else if c == Char.ofNat 9 then "\\t"
  else if c.toNat < 32 then
    "\\u00" ++ String.singleton (hexDigitChar (c.toNat / 16)) ++
      String.singleton (hexDigitChar (c.toNat % 16))
  else String.singleton c

/-- Escape a whole string for JSON output. -/
def jescape (s : String) : String :=
  s.data.foldl (fun acc c => acc ++ jescapeChar c) ""

mutual

/-- Model of `JSON.stringify` on parsed JSON values. -/
def jstringify : Jval → String
  | .jnull => "null"
  | .jbool true => "true"
  | .jbool false => "false"
  | .jnum n => toString n
  | .jstr s => "\"" ++ jescape s ++ "\""
  | .jarr xs => "[" ++ jstringifyArr xs ++ "]"
  | .jobj fs => "\x7b" ++ jstringifyObj fs ++ "\x7d"
termination_by structural v => v

/-- Stringify array elements, comma separated. -/
def jstringifyArr : List Jval → String
  | [] => ""
  | [x] => jstringify x
  | x :: y :: rest => jstringify x ++ "," ++ jstringifyArr (y :: rest)
termination_by structural l => l

/-- Stringify object fields, comma separated. -/
def jstringifyObj : List (String × Jval) → String
  | [] => ""
  | [(k, v)] => "\"" ++ jescape k ++ "\":" ++ jstringify v
  | (k, v) :: y :: rest =>
      "\"" ++ jescape k ++ "\":" ++ jstringify v ++ "," ++ jstringifyObj (y :: rest)
termination_by structural l => l

end

/-- Characters `encodeURIComponent` leaves unescaped: alphanumerics and
the marks `- _ . ! ~ * ' ( )` (listed here by code point). -/
def uriUnreserved (c : Char) : Bool :=
  c.isAlphanum || c == Char.ofNat 45 || c == Char.ofNat 95 || c == Char.ofNat 46 ||
    c == Char.ofNat 33 || c == Char.ofNat 126 || c == Char.ofNat 42 ||
    c == Char.ofNat 39 || c == Char.ofNat 40 || c == Char.ofNat 41

/-- UTF-8 bytes of a character, by the standard bit layout. -/
def utf8Bytes (c : Char) : List Nat :=
  let n := c.toNat
  if n < 128 then [n]
  else if n < 2048 then [192 + n / 64, 128 + n % 64]
  else if n < 65536 then [224 + n / 4096, 128 + (n / 64) % 64, 128 + n % 64]
  else [240 + n / 262144, 128 + (n / 4096) % 64, 128 + (n / 64) % 64, 128 + n % 64]

/-- Upper-case hexadecimal digit, as used by percent-encoding. -/
def hexDigitUpper (n : Nat) : Char :=
  if n < 10 then Char.ofNat (48 + n) else Char.ofNat (55 + n)

/-- Percent-encode one character (UTF-8 bytes, upper-case hex). -/
def percentEncodeChar (c : Char) : String :=
  (utf8Bytes c).foldl
    (fun acc n =>
      acc ++ "%" ++ String.singleton (hexDigitUpper (n / 16)) ++
        String.singleton (hexDigitUpper (n % 16))) ""

/-- Model of JS `encodeURIComponent`. -/
def encodeURIComponent (s : String) : String :=
  s.data.foldl (fun acc c =>
    if uriUnreserved c then acc ++ String.singleton c else acc ++ percentEncodeChar c) ""

/-- Outbound request as passed to `fetch` (the body is the value handed to
`JSON.stringify`, when present). -/
structure FetchReq where
  url : String
  method : String
  headers : List (String × String)
  body : Option Jval
deriving Repr

/-- Outbound response: HTTP status, raw text, and the outcome of parsing
the text as JSON (`.error` when `res.json()` / `JSON.parse` would throw). -/
structure FetchRes where
  status : Nat
  text : String
  parsed : Except String Jval
deriving Repr

/-- `Response.ok` of the fetch API: status in the range 200-299. -/
def FetchRes.ok (r : FetchRes) : Bool := 200 ≤ r.status && r.status < 300

/-- The network oracle: maps a request to a response or a rejection. -/
def Fetch : Type := FetchReq → Except String FetchRes

/-- Inbound request body.  `noBody` is a `null` body, `emptyStr` a present
but empty string (falsy in JS, so `event.body || ...` replaces it and a
direct `JSON.parse` of it throws), and `present` a non-empty string given
with the outcome of `JSON.parse` on it. -/
inductive EventBody where
  | noBody
  | emptyStr
  | present (parsed : Except String Jval)
deriving Repr

/-- Inbound event as delivered to a handler. -/
structure Event where
  httpMethod : String
  body : EventBody
  queryStringParameters : Option (List (String × String))
deriving Repr

/-- Body of a handler response: either a raw string or the value handed to
`JSON.stringify`. -/
inductive OutBody where
  | raw (s : String)
  | json (v : Jval)
deriving Repr

/-- Handler response. -/
structure Response where
  statusCode : Nat
  headers : List (String × String)
  body : OutBody
deriving Repr

/-- Result of a handler that catches every exception. -/
structure HResult where
  response : Response
  calls : List FetchReq
deriving Repr

/-- Result of a handler that may let an exception escape. -/
structure ManageResult where
  outcome : Except String Response
  calls : List FetchReq
deriving Repr

/-- Process environment for the Supabase-backed handlers. -/
structure Env where
  SUPABASE_URL : Option String
  SUPABASE_SERVICE_ROLE_KEY : Option String
deriving Repr

/-- Truthiness of an optional environment string (unset or empty is falsy). -/
def optTruthy : Option String → Bool
  | none => false
  | some s => s != ""

/-- Parse of `event.body || \x7b\x7d` : a missing or empty body is falsy,
so the default text parses to the empty object; otherwise the parse
outcome of the present non-empty string is used. -/
def parseBodyOrEmpty : EventBody → Except String Jval
  | .noBody => .ok (.jobj [])
  | .emptyStr => .ok (.jobj [])
  | .present r => r

/-! ## create-seller.js -/

/-- Request of step 1 of create-seller: `POST /auth/v1/admin/users`. -/
def createUserReq (su key : String) (email password : Jval) : FetchReq :=
  { url := su ++ "/auth/v1/admin/users"
    method := "POST"
    headers := [("apikey", key), ("Authorization", "Bearer " ++ key),
                ("Content-Type", "application/json")]
    body := some (.jobj [("email", email), ("password", password),
                         ("email_confirm", .jbool true)]) }

/-- Request of step 2 of create-seller: lookup of users by email. -/
def lookupUserReq (su key : String) (email : Jval) : FetchReq :=
  { url := su ++ "/auth/v1/admin/users?email=" ++ encodeURIComponent (jToString email)
    method := "GET"
    headers := [("apikey", key), ("Authorization", "Bearer " ++ key)]
    body := none }

/-- Request of step 3 of create-seller: upsert into `profiles`. -/
def upsertProfileReq (su key : String) (userId : Jval) : FetchReq :=
  { url := su ++ "/rest/v1/profiles"
    method := "POST"
    headers := [("apikey", key), ("Authorization", "Bearer " ++ key),
                ("Content-Type", "application/json"),
                ("Prefer", "resolution=merge-duplicates")]
    body := some (.jobj [("id", userId), ("role", .jstr "seller")]) }

/-- The `createJson` of create-seller: `createRes.json()` with the local
try/catch that falls back to the empty object. -/
def createResJson (r : FetchRes) : Jval :=
  match r.parsed with
  | .ok v => v
  | .error _ => .jobj []

/-- Extraction `createJson?.user?.id || createJson?.id || null`. -/
def createUserIdOf (j : Jval) : Jval :=
  let a := jget (jget j "user") "id"
  if a.truthy then a
  else
    let b := jget j "id"
    if b.truthy then b else .jnull

/-- Extraction `lookupJson?.[0]?.id || lookupJson?.user?.id || null`. -/
def lookupUserIdOf (j : Jval) : Jval :=
  let a := jget (jidx j 0) "id"
  if a.truthy then a
  else
    let b := jget (jget j "user") "id"
    if b.truthy then b else .jnull

/-- Step 3 of create-seller, shared by both identifier-resolution paths:
the profile upsert and the final response. -/
def createSellerUpsert (su key : String) (f : Fetch) (userId : Jval)
    (callsSoFar : List FetchReq) : Except String Response × List FetchReq :=
  let req := upsertProfileReq su key userId
  match f req with
  | .error m => (.error m, callsSoFar ++ [req])
  | .ok res =>
    if !res.ok then
      (.ok { statusCode := 500, headers := []
             body := .json (.jobj [("error", .jstr "Falló al asignar rol seller"),
                                   ("detail", .jstr res.text)]) },
       callsSoFar ++ [req])
    else
      (.ok { statusCode := 200, headers := []
             body := .json (.jobj [("message", .jstr "Vendedor creado"),
                                   ("userId", userId)]) },
       callsSoFar ++ [req])

/-- Body of the `try` block of create-seller (everything after the method
check); an `Except.error` is an exception reaching the handler's `catch`. -/
def createSellerTry (env : Env) (f : Fetch) (event : Event) :
    Except String Response × List FetchReq :=
  match parseBodyOrEmpty event.body with
  | .error m => (.error m, [])
  | .ok bodyVal =>
    match jdestructure2 bodyVal "email" "password" with
    | .error m => (.error m, [])
    | .ok (email, password) =>
      if !email.truthy || !password.truthy then
        (.ok { statusCode := 400, headers := []
               body := .json (.jobj [("error", .jstr "Email y contraseña son obligatorios")]) },
         [])
      else if !optTruthy env.SUPABASE_URL || !optTruthy env.SUPABASE_SERVICE_ROLE_KEY then
        (.ok { statusCode := 500, headers := []
               body := .json (.jobj [("error", .jstr "Variables de entorno faltantes")]) },
         [])
      else
        let su := env.SUPABASE_URL.getD ""
        let key := env.SUPABASE_SERVICE_ROLE_KEY.getD ""
        let req1 := createUserReq su key email password
        match f req1 with
        | .error m => (.error m, [req1])
        | .ok createRes =>
          let userId := createUserIdOf (createResJson createRes)
          if createRes.status == 422 || !userId.truthy then
            let req2 := lookupUserReq su key email
            match f req2 with
            | .error m => (.error m, [req1, req2])
            | .ok lookupRes =>
              match lookupRes.parsed with
              | .error m => (.error m, [req1, req2])
              | .ok lookupJson =>
                let userId2 := lookupUserIdOf lookupJson
                if !userId2.truthy then
                  (.ok { statusCode := 422, headers := []
                         body := .json (.jobj [("error", .jstr "No se pudo obtener ID de usuario")]) },
                   [req1, req2])
                else
                  createSellerUpsert su key f userId2 [req1, req2]
          else
            createSellerUpsert su key f userId [req1]

/-- The create-seller handler: method check, then the `try` body with its
`catch` turning any exception into a 500 with the exception message. -/
def createSellerHandler (env : Env) (f : Fetch) (event : Event) : HResult :=
  if event.httpMethod != "POST" then
    { response := { statusCode := 405, headers := []
                    body := .json (.jobj [("error", .jstr "Method not allowed")]) }
      calls := [] }
  else
    match createSellerTry env f event with
    | (.error m, calls) =>
        { response := { statusCode := 500, headers := []
                        body := .json (.jobj [("error", .jstr m)]) }
          calls := calls }
    | (.ok r, calls) => { response := r, calls := calls }

/-! ## manage-seller.js -/

/-- The `data` field computed by `requestSupabase`: the parsed JSON when
the text parses, otherwise the raw text as a JS string. -/
def supaData (r : FetchRes) : Jval :=
  match r.parsed with
  | .ok v => v
  | .error _ => .jstr r.text

/-- Headers used by every manage-seller Supabase request. -/
def adminHeaders (key : String) : List (String × String) :=
  [("apikey", key), ("Authorization", "Bearer " ++ key),
   ("Content-Type", "application/json")]

/-- GET branch: query of seller profiles. -/
def profilesListReq (su key : String) : FetchReq :=
  { url := su ++ "/rest/v1/profiles?role=eq.seller&select=id"
    method := "GET", headers := adminHeaders key, body := none }

/-- GET branch: per-seller account lookup by interpolated identifier. -/
def userGetReq (su key : String) (uid : Jval) : FetchReq :=
  { url := su ++ "/auth/v1/admin/users/" ++ jToString uid
    method := "GET", headers := adminHeaders key, body := none }

/-- PUT/PATCH branch: password update request. -/
def userPatchReq (su key : String) (id password : Jval) : FetchReq :=
  { url := su ++ "/auth/v1/admin/users/" ++ jToString id
    method := "PATCH", headers := adminHeaders key
    body := some (.jobj [("password", password)]) }

/-- DELETE branch: account deletion request. -/
def userDeleteReq (su key : String) (id : String) : FetchReq :=
  { url := su ++ "/auth/v1/admin/users/" ++ id
    method := "DELETE", headers := adminHeaders key, body := none }

/-- JS `for...of` iterability: arrays iterate their elements, strings their
characters; other values throw a TypeError. -/
def jiterate : Jval → Except String (List Jval)
  | .jarr xs => .ok xs
  | .jstr s => .ok (s.data.map fun c => .jstr (String.singleton c))
  | _ => .error "TypeError: value is not iterable"

/-- Parse in the PUT/PATCH branch: `JSON.parse(event.body)` with a catch
that falls back to the empty object.  A `null` body parses (without
throwing) to JSON `null`, since `JSON.parse` coerces it to the string
representation of `null`; an empty-string body makes the parse throw, so
the catch yields the empty object. -/
def manageParseBody : EventBody → Jval
  | .noBody => .jnull
  | .emptyStr => .jobj []
  | .present (.ok v) => v
  | .present (.error _) => .jobj []

/-- First value of a query-string parameter, as `URLSearchParams.get`. -/
def getQueryParam (qsp : Option (List (String × String))) (k : String) : Option String :=
  (qsp.getD []).lookup k

/-- The per-seller loop of the GET branch: one account lookup per profile
record, pushing an `id`/`email` pair when the lookup is ok and its data is
truthy. -/
def listSellersLoop (su key : String) (f : Fetch) :
    List Jval → Except String (List Jval) × List FetchReq
  | [] => (.ok [], [])
  | seller :: rest =>
    match jdot seller "id" with
    | .error m => (.error m, [])
    | .ok uid =>
      let req := userGetReq su key uid
      match f req with
      | .error m => (.error m, [req])
      | .ok userRes =>
        let data := supaData userRes
        if userRes.ok && data.truthy then
          match jdot data "email" with
          | .error m => (.error m, [req])
          | .ok email =>
            match listSellersLoop su key f rest with
            | (out, calls) =>
              (out.map (fun l => Jval.jobj [("id", uid), ("email", email)] :: l),
               req :: calls)
        else
          match listSellersLoop su key f rest with
          | (out, calls) => (out, req :: calls)

/-- The manage-seller handler.  It has no try/catch, so an exception (or a
rejected `fetch`) escapes as an `Except.error` outcome. -/
def manageSellerHandler (env : Env) (f : Fetch) (event : Event) : ManageResult :=
  if !optTruthy env.SUPABASE_URL || !optTruthy env.SUPABASE_SERVICE_ROLE_KEY then
    { outcome := .ok
        { statusCode := 500, headers := []
          body := .json (.jobj [("message",
            .jstr "Faltan variables de entorno SUPABASE_URL o SERVICE_ROLE_KEY")]) }
      calls := [] }
  else
    let su := env.SUPABASE_URL.getD ""
    let key := env.SUPABASE_SERVICE_ROLE_KEY.getD ""
    if event.httpMethod == "GET" then
      let req := profilesListReq su key
      match f req with
      | .error m => { outcome := .error m, calls := [req] }
      | .ok profilesRes =>
        if !profilesRes.ok then
          { outcome := .ok
              { statusCode := profilesRes.status, headers := []
                body := .json (.jobj [("message", .jstr "Error obteniendo perfiles"),
                                      ("detail", supaData profilesRes)]) }
            calls := [req] }
        else
          match jiterate (supaData profilesRes) with
          | .error m => { outcome := .error m, calls := [req] }
          | .ok sellers =>
            match listSellersLoop su key f sellers with
            | (.error m, calls) => { outcome := .error m, calls := req :: calls }
            | (.ok result, calls) =>
                { outcome := .ok
                    { statusCode := 200, headers := []
                      body := .json (.jarr result) }
                  calls := req :: calls }
    else if event.httpMethod == "PUT" || event.httpMethod == "PATCH" then
      match jdestructure2 (manageParseBody event.body) "id" "password" with
      | .error m => { outcome := .error m, calls := [] }
      | .ok (id, password) =>
        if !id.truthy || !password.truthy then
          { outcome := .ok
              { statusCode := 400, headers := []
                body := .json (.jobj [("message", .jstr "id y password son obligatorios")]) }
            calls := [] }
        else
          let req := userPatchReq su key id password
          match f req with
          | .error m => { outcome := .error m, calls := [req] }
          | .ok updateRes =>
            if !updateRes.ok then
              { outcome := .ok
                  { statusCode := updateRes.status, headers := []
                    body := .json (.jobj [("message", .jstr "Error actualizando contraseña"),
                                          ("detail", supaData updateRes)]) }
                calls := [req] }
            else
              { outcome := .ok
                  { statusCode := 200, headers := []
                    body := .json (.jobj [("message", .jstr "Contraseña actualizada")]) }
                calls := [req] }
    else if event.httpMethod == "DELETE" then
      let idOpt := getQueryParam event.queryStringParameters "id"
      if !optTruthy idOpt then
        { outcome := .ok
            { statusCode := 400, headers := []
              body := .json (.jobj [("message", .jstr "id es obligatorio para eliminar")]) }
          calls := [] }
      else
        let req := userDeleteReq su key (idOpt.getD "")
        match f req with
        | .error m => { outcome := .error m, calls := [req] }
        | .ok deleteRes =>
          if !deleteRes.ok then
            { outcome := .ok
                { statusCode := deleteRes.status, headers := []
                  body := .json (.jobj [("message", .jstr "Error eliminando usuario"),
                                        ("detail", supaData deleteRes)]) }
              calls := [req] }
          else
            { outcome := .ok
                { statusCode := 200, headers := []
                  body := .json (.jobj [("message", .jstr "Vendedor eliminado")]) }
              calls := [req] }
    else
      { outcome := .ok
          { statusCode := 405, headers := []
            body := .json (.jobj [("message", .jstr "Método no permitido")]) }
        calls := [] }

/-! ## Insight-generation handler -/

/-- The constant CORS header set of the insight-generation handler. -/
def insightHeaders : List (String × String) :=
  [("Content-Type", "application/json"),
   ("Access-Control-Allow-Origin", "*"),
   ("Access-Control-Allow-Methods", "GET,POST,OPTIONS"),
   ("Access-Control-Allow-Headers", "Content-Type, Authorization")]

/-- Template-literal helper `v || d` followed by string interpolation. -/
def jvalOr (v : Jval) (d : String) : String :=
  if v.truthy then jToString v else d

/-- The deterministic mock analysis text. -/
def mockAnalysis (name category description salesSummary : Jval) : String :=
  "Resumen (MOCK) para \"" ++ jvalOr name "Producto" ++ "\" (" ++
    jvalOr category "N/D" ++ "):\n" ++
  "- " ++ jvalOr description "Descripción no provista" ++ "\n" ++
  "- Ventas del día: " ++ jvalOr salesSummary "N/D" ++ "\n" ++
  "Sugerencia: Optimiza títulos e imágenes para mejorar conversión."

/-- The prompt sent to the generative API: the caller's prompt when truthy,
otherwise the templated text. -/
def geminiUserText (prompt name category description salesSummary : Jval) : Jval :=
  if prompt.truthy then prompt
  else .jstr ("Analiza estas ventas y redacta insights:\n" ++
    jvalOr salesSummary "" ++ "\n" ++
    "Producto: " ++ jvalOr name "" ++ " | Categoría: " ++ jvalOr category "" ++
    " | Desc: " ++ jvalOr description "")

/-- The outbound generative-language API request. -/
def geminiReq (apiKey : String) (userText : Jval) : FetchReq :=
  { url := "https://generativelanguage.googleapis.com/v1beta/models/gemini-1.5-flash:generateContent?key="
             ++ apiKey
    method := "POST"
    headers := [("Content-Type", "application/json")]
    body := some (.jobj [("contents",
      .jarr [.jobj [("parts", .jarr [.jobj [("text", userText)]])]])]) }

/-- Extraction `data?.candidates?.[0]?.content?.parts?.[0]?.text ||
JSON.stringify(data)`. -/
def geminiText (data : Jval) : Jval :=
  let t := jget (jidx (jget (jget (jidx (jget data "candidates") 0) "content") "parts") 0) "text"
  if t.truthy then t else .jstr (jstringify data)

/-- Body of the `try` block of the insight-generation handler. -/
def insightTry (apiKey : Option String) (f : Fetch) (event : Event) :
    Except String Response × List FetchReq :=
  match parseBodyOrEmpty event.body with
  | .error m => (.error m, [])
  | .ok bodyVal =>
    match jdestructure5 bodyVal "prompt" "name" "category" "description" "salesSummary" with
    | .error m => (.error m, [])
    | .ok (prompt, name, category, description, salesSummary) =>
      if !optTruthy apiKey then
        (.ok { statusCode := 200, headers := insightHeaders
               body := .json (.jobj [
                 ("analysis", .jstr (mockAnalysis name category description salesSummary)),
                 ("mode", .jstr "mock")]) },
         [])
      else
        let req := geminiReq (apiKey.getD "")
          (geminiUserText prompt name category description salesSummary)
        match f req with
        | .error m => (.error m, [req])
        | .ok resp =>
          if !resp.ok then
            (.ok { statusCode := resp.status, headers := insightHeaders
                   body := .json (.jobj [("error", .jstr resp.text)]) },
             [req])
          else
            match resp.parsed with
            | .error m => (.error m, [req])
            | .ok data =>
              (.ok { statusCode := 200, headers := insightHeaders
                     body := .json (.jobj [("analysis", geminiText data),
                                           ("mode", .jstr "gemini")]) },
               [req])

/-- The insight-generation handler: preflight branch, then the `try` body
with the `catch` that yields a 500 with the exception message. -/
def insightHandler (apiKey : Option String) (f : Fetch) (event : Event) : HResult :=
  if event.httpMethod == "OPTIONS" then
    { response := { statusCode := 200, headers := insightHeaders, body := .raw "" }
      calls := [] }
  else
    match insightTry apiKey f event with
    | (.error m, calls) =>
        { response := { statusCode := 500, headers := insightHeaders
                        body := .json (.jobj [("error", .jstr m)]) }
          calls := calls }
    | (.ok r, calls) => { response := r, calls := calls }

/-! ## Test fixtures (concrete environments, events and oracles) -/

/-- An oracle on which every outbound call is rejected; used in runs that
must not reach the network. -/
def noFetch : Fetch := fun _ => .error "network unavailable"

/-- An environment with neither Supabase variable set. -/
def envNone : Env := { SUPABASE_URL := none, SUPABASE_SERVICE_ROLE_KEY := none }

/-- A fully configured test environment. -/
def envTest : Env :=
  { SUPABASE_URL := some "https://x.supabase.co", SUPABASE_SERVICE_ROLE_KEY := some "k" }

/-- A POST event with a well-formed email/password body. -/
def evCreatePost : Event :=
  { httpMethod := "POST"
    body := .present (.ok (.jobj [("email", .jstr "a@b.com"), ("password", .jstr "secret1")]))
    queryStringParameters := none }

/-- An oracle for the conflict path of create-seller: the creation call
answers 422, the email lookup answers an empty array. -/
def oracleConflictEmptyLookup : Fetch := fun r =>
  if r.url = "https://x.supabase.co/auth/v1/admin/users" then
    .ok { status := 422, text := "duplicate"
          parsed := .ok (.jobj [("msg", .jstr "User already registered")]) }
  else if r.url = "https://x.supabase.co/auth/v1/admin/users?email=a%40b.com" then
    .ok { status := 200, text := "[]", parsed := .ok (.jarr []) }
  else .error "unexpected request"

/-- An oracle for the list path of manage-seller: two seller profiles; the
account lookup succeeds for `u1` and fails (status 500) for `u2`. -/
def oracleListPartial : Fetch := fun r =>
  if r.url = "https://x.supabase.co/rest/v1/profiles?role=eq.seller&select=id" then
    .ok { status := 200, text := "..."
          parsed := .ok (.jarr [.jobj [("id", .jstr "u1")], .jobj [("id", .jstr "u2")]]) }
  else if r.url = "https://x.supabase.co/auth/v1/admin/users/u1" then
    .ok { status := 200, text := "..."
          parsed := .ok (.jobj [("id", .jstr "u1"), ("email", .jstr "s1@x.com")]) }
  else if r.url = "https://x.supabase.co/auth/v1/admin/users/u2" then
    .ok { status := 500, text := "upstream failure", parsed := .error "not json" }
  else .error "unexpected request"

/-- Result of the list operation as the specification words it: one
`id`/`email` pair, in profile-query order, for each profile whose account
lookup succeeds (response ok and truthy data), silently omitting the
others.  This is the spec-side description, to be compared with the
imperative loop `listSellersLoop` taken from the code. -/
def listJoinSpec (su key : String) (f : Fetch) (ps : List Jval) : List Jval :=
  ps.filterMap fun p =>
    match f (userGetReq su key (jget p "id")) with
    | .error _ => none
    | .ok r =>
      if r.ok && (supaData r).truthy then
        some (.jobj [("id", jget p "id"), ("email", jget (supaData r) "email")])
      else none

end EVPos

namespace EVPos

/-! ## Theorems settling the claims -/

/-- C2 counterexample: a POST to create-seller carrying both email and
password, with no backend credentials configured, is answered with
status 500 — a server error, not the client-error (4xx) status the claim
demands. -/
theorem c2_counterexample :
    (createSellerHandler envNone noFetch evCreatePost).response.statusCode = 500 ∧
    ¬ (400 ≤ (createSellerHandler envNone noFetch evCreatePost).response.statusCode ∧
       (createSellerHandler envNone noFetch evCreatePost).response.statusCode < 500) := by
  constructor
  · rfl
  · intro h
    have h500 : (createSellerHandler envNone noFetch evCreatePost).response.statusCode = 500 := rfl
    rw [h500] at h
    exact absurd h.2 (by norm_num)

/-- C2 (amended): a POST to create-seller carrying truthy email and
password, with either backend credential unconfigured, is rejected with a
500 response ("Variables de entorno faltantes") and no outbound call. -/
theorem c2_theorem (env : Env) (f : Fetch) (event : Event) (v email password : Jval)
    (hm : event.httpMethod = "POST")
    (hv : parseBodyOrEmpty event.body = .ok v)
    (hd : jdestructure2 v "email" "password" = .ok (email, password))
    (he : email.truthy = true) (hp : password.truthy = true)
    (henv : (!optTruthy env.SUPABASE_URL || !optTruthy env.SUPABASE_SERVICE_ROLE_KEY) = true) :
    (createSellerHandler env f event).response =
      { statusCode := 500, headers := []
        body := .json (.jobj [("error", .jstr "Variables de entorno faltantes")]) } ∧
    (createSellerHandler env f event).calls = [] := by
  constructor <;>
    simp [createSellerHandler, createSellerTry, hm, hv, hd, he, hp, henv]

/-- C2 witness: the amended theorem applied to the concrete POST above. -/
theorem c2_theorem_witness :
    (createSellerHandler envNone noFetch evCreatePost).response =
      { statusCode := 500, headers := []
        body := .json (.jobj [("error", .jstr "Variables de entorno faltantes")]) } :=
  (c2_theorem envNone noFetch evCreatePost
    (.jobj [("email", .jstr "a@b.com"), ("password", .jstr "secret1")])
    (.jstr "a@b.com") (.jstr "secret1") rfl rfl rfl rfl rfl rfl).1

/-- C6: a DELETE to manage-seller with backend configuration present and no
non-empty `id` query parameter returns 400 with the exact message and
issues no outbound call. -/
theorem c6_theorem (env : Env) (f : Fetch) (event : Event)
    (hu : optTruthy env.SUPABASE_URL = true)
    (hk : optTruthy env.SUPABASE_SERVICE_ROLE_KEY = true)
    (hm : event.httpMethod = "DELETE")
    (hid : optTruthy (getQueryParam event.queryStringParameters "id") = false) :
    (manageSellerHandler env f event).outcome =
      .ok { statusCode := 400, headers := []
            body := .json (.jobj [("message", .jstr "id es obligatorio para eliminar")]) } ∧
    (manageSellerHandler env f event).calls = [] := by
  constructor <;> simp [manageSellerHandler, hu, hk, hm, hid]

/-- C6 witness: a concrete DELETE with no query parameters. -/
theorem c6_theorem_witness :
    (manageSellerHandler envTest noFetch
      { httpMethod := "DELETE", body := .noBody, queryStringParameters := none }).outcome =
      .ok { statusCode := 400, headers := []
            body := .json (.jobj [("message", .jstr "id es obligatorio para eliminar")]) } :=
  (c6_theorem envTest noFetch
    { httpMethod := "DELETE", body := .noBody, queryStringParameters := none }
    rfl rfl rfl rfl).1

/-- C7: an OPTIONS request to the insight handler always yields status 200
with an empty raw body and the CORS headers, and no outbound call —
whatever the API-key configuration, oracle and body. -/
theorem c7_theorem (apiKey : Option String) (f : Fetch) (event : Event)
    (h : event.httpMethod = "OPTIONS") :
    (insightHandler apiKey f event).response =
      { statusCode := 200, headers := insightHeaders, body := .raw "" } ∧
    (insightHandler apiKey f event).calls = [] := by
  constructor <;> simp [insightHandler, h]

/-- C7 witness: a concrete OPTIONS preflight with a malformed body and an
API key configured. -/
theorem c7_theorem_witness :
    (insightHandler (some "AIza") noFetch
      { httpMethod := "OPTIONS", body := .present (.error "bad json")
        queryStringParameters := none }).response =
      { statusCode := 200, headers := insightHeaders, body := .raw "" } :=
  (c7_theorem (some "AIza") noFetch
    { httpMethod := "OPTIONS", body := .present (.error "bad json")
      queryStringParameters := none } rfl).1

/-- C8 counterexample: a POST whose body is present but is the empty
string — which is not valid JSON — is falsy, so the default text replaces
it and parses to the empty object: the handler answers the 400
missing-fields response, not the 500 the claim demands for every present
invalid body. -/
theorem c8_counterexample :
    (createSellerHandler envTest noFetch
      { httpMethod := "POST", body := .emptyStr
        queryStringParameters := none }).response.statusCode = 400 ∧
    (createSellerHandler envTest noFetch
      { httpMethod := "POST", body := .emptyStr
        queryStringParameters := none }).response.statusCode ≠ 500 := by
  exact ⟨rfl, by decide⟩

/-- C8 (amended): a POST to create-seller whose body is present, non-empty
and not valid JSON is answered by the catch branch — 500 with the
parse-exception message, not the 400 missing-fields response — with no
outbound call; the present empty-string body is falsy, is replaced by the
default text and parses to the empty object, so it gets the 400
missing-fields response instead, also with no outbound call. -/
theorem c8_theorem (env : Env) (f : Fetch) (event : Event)
    (hm : event.httpMethod = "POST") :
    (∀ m, event.body = .present (.error m) →
      (createSellerHandler env f event).response =
        { statusCode := 500, headers := []
          body := .json (.jobj [("error", .jstr m)]) } ∧
      (createSellerHandler env f event).calls = []) ∧
    (event.body = .emptyStr →
      (createSellerHandler env f event).response =
        { statusCode := 400, headers := []
          body := .json (.jobj [("error", .jstr "Email y contraseña son obligatorios")]) } ∧
      (createSellerHandler env f event).calls = []) := by
  constructor
  · intro m hb
    constructor <;>
      simp [createSellerHandler, createSellerTry, parseBodyOrEmpty, hm, hb]
  · intro hb
    constructor <;>
      simp [createSellerHandler, createSellerTry, parseBodyOrEmpty, jdestructure2,
            jget, jlookup, Jval.truthy, hm, hb]

/-- C8 witness: a concrete non-empty malformed body on a configured
environment gets the 500 with the parse message. -/
theorem c8_theorem_witness :
    (createSellerHandler envTest noFetch
      { httpMethod := "POST", body := .present (.error "Unexpected token x in JSON")
        queryStringParameters := none }).response =
      { statusCode := 500, headers := []
        body := .json (.jobj [("error", .jstr "Unexpected token x in JSON")]) } :=
  ((c8_theorem envTest noFetch
    { httpMethod := "POST", body := .present (.error "Unexpected token x in JSON")
      queryStringParameters := none } rfl).1 "Unexpected token x in JSON" rfl).1

/-- C9: when either Supabase variable is unconfigured, manage-seller
returns 500 whatever the HTTP method (including ones that would otherwise
get 405) and issues no outbound call. -/
theorem c9_theorem (env : Env) (f : Fetch) (event : Event)
    (henv : (!optTruthy env.SUPABASE_URL || !optTruthy env.SUPABASE_SERVICE_ROLE_KEY) = true) :
    (manageSellerHandler env f event).outcome =
      .ok { statusCode := 500, headers := []
            body := .json (.jobj [("message",
              .jstr "Faltan variables de entorno SUPABASE_URL o SERVICE_ROLE_KEY")]) } ∧
    (manageSellerHandler env f event).calls = [] := by
  constructor <;> simp [manageSellerHandler, henv]

/-- C9 witness: an OPTIONS request (a method with no branch of its own) on
the unconfigured environment. -/
theorem c9_theorem_witness :
    (manageSellerHandler envNone noFetch
      { httpMethod := "OPTIONS", body := .noBody, queryStringParameters := none }).outcome =
      .ok { statusCode := 500, headers := []
            body := .json (.jobj [("message",
              .jstr "Faltan variables de entorno SUPABASE_URL o SERVICE_ROLE_KEY")]) } :=
  (c9_theorem envNone noFetch
    { httpMethod := "OPTIONS", body := .noBody, queryStringParameters := none } rfl).1

/-- Helper: destructuring a non-null value yields its (possibly undefined)
properties without throwing. -/
theorem jdestructure2_ne_null (v : Jval) (k1 k2 : String) (h : v ≠ .jnull) :
    jdestructure2 v k1 k2 = .ok (jget v k1, jget v k2) := by
  cases v <;> simp_all [jdestructure2]

/-- Helper: plain property access on a truthy value does not throw and
agrees with optional-chaining access. -/
theorem jdot_of_truthy (v : Jval) (k : String) (h : v.truthy = true) :
    jdot v k = .ok (jget v k) := by
  cases v <;> simp_all [jdot, jget, Jval.truthy]

/-- Helper: every successful response of the insight try body carries the
CORS header set. -/
theorem insightTry_ok_headers (apiKey : Option String) (f : Fetch) (event : Event)
    (r : Response) (cs : List FetchReq)
    (h : insightTry apiKey f event = (.ok r, cs)) : r.headers = insightHeaders := by
  unfold insightTry at h
  split at h
  · simp_all
  · rename_i v hb
    cases hd : jdestructure5 v "prompt" "name" "category" "description" "salesSummary" with
    | error m => rw [hd] at h; simp_all
    | ok q =>
      obtain ⟨p1, p2, p3, p4, p5⟩ := q
      rw [hd] at h
      simp only [] at h
      repeat' split at h
      all_goals injection h with h1 h2
      all_goals first
        | (injection h1 with h3 ; subst h3 ; rfl)
        | injection h1

/-- C10: every response of the insight handler, on every branch, carries
the constant CORS header set, which includes the permissive
Access-Control-Allow-Origin. -/
theorem c10_theorem (apiKey : Option String) (f : Fetch) (event : Event) :
    (insightHandler apiKey f event).response.headers = insightHeaders ∧
    ("Access-Control-Allow-Origin", "*") ∈ insightHeaders := by
  refine ⟨?_, by simp [insightHeaders]⟩
  unfold insightHandler
  split
  · rfl
  · rcases hTry : insightTry apiKey f event with ⟨out, cs⟩
    cases out with
    | error m => rfl
    | ok r => exact insightTry_ok_headers apiKey f event r cs hTry

/-- Helper: with a falsy API key the insight try body issues no outbound
call, whatever the body. -/
theorem insightTry_no_key_calls (apiKey : Option String) (f : Fetch) (event : Event)
    (hkey : optTruthy apiKey = false) :
    (insightTry apiKey f event).2 = [] := by
  unfold insightTry
  cases hb : parseBodyOrEmpty event.body with
  | error m => rfl
  | ok v => cases v <;> simp [jdestructure5, hkey]

/-- Helper: with a falsy API key and a body parsing to a non-null value,
the insight try body returns the 200 mock response. -/
theorem insightTry_no_key_mock (apiKey : Option String) (f : Fetch) (event : Event)
    (v : Jval) (hkey : optTruthy apiKey = false)
    (hv : parseBodyOrEmpty event.body = .ok v) (hnn : v ≠ .jnull) :
    (insightTry apiKey f event).1 = .ok
      { statusCode := 200, headers := insightHeaders
        body := .json (.jobj [
          ("analysis", .jstr (mockAnalysis (jget v "name") (jget v "category")
            (jget v "description") (jget v "salesSummary"))),
          ("mode", .jstr "mock")]) } := by
  unfold insightTry
  rw [hv]
  cases v <;> simp_all [jdestructure5, hkey, jget]

/-- C1 counterexample: with no API key configured, a request whose body is
present, non-empty but malformed JSON is answered with status 500 (the
caught parse exception), not the 200 mock response the claim demands for
all bodies. -/
theorem c1_counterexample :
    (insightHandler none noFetch
      { httpMethod := "POST"
        body := .present (.error "Unexpected token o in JSON at position 1")
        queryStringParameters := none }).response.statusCode = 500 ∧
    (insightHandler none noFetch
      { httpMethod := "POST"
        body := .present (.error "Unexpected token o in JSON at position 1")
        queryStringParameters := none }).response.statusCode ≠ 200 := by
  exact ⟨rfl, by decide⟩

/-- C1 (amended): with no (truthy) API key the insight handler never
issues an outbound call, for every request; every non-preflight request
whose body is absent, empty, or parses to a non-null JSON value gets the
200 mock response; and every non-preflight request whose body is present,
non-empty and not valid JSON throws before the key check and is answered
500 with the parse-exception message. -/
theorem c1_theorem (apiKey : Option String) (f : Fetch) (event : Event)
    (hkey : optTruthy apiKey = false) :
    (insightHandler apiKey f event).calls = [] ∧
    (event.httpMethod ≠ "OPTIONS" →
      (∀ v, parseBodyOrEmpty event.body = .ok v → v ≠ .jnull →
        (insightHandler apiKey f event).response =
          { statusCode := 200, headers := insightHeaders
            body := .json (.jobj [
              ("analysis", .jstr (mockAnalysis (jget v "name") (jget v "category")
                (jget v "description") (jget v "salesSummary"))),
              ("mode", .jstr "mock")]) }) ∧
      (∀ m, event.body = .present (.error m) →
        (insightHandler apiKey f event).response =
          { statusCode := 500, headers := insightHeaders
            body := .json (.jobj [("error", .jstr m)]) })) := by
  by_cases hm : event.httpMethod = "OPTIONS"
  · exact ⟨by simp [insightHandler, hm], fun hne => absurd hm hne⟩
  · have hm' : (event.httpMethod == "OPTIONS") = false := by
      simp [hm]
    refine ⟨?_, fun _ => ⟨?_, ?_⟩⟩
    · have hcalls := insightTry_no_key_calls apiKey f event hkey
      simp only [insightHandler, hm', Bool.false_eq_true, if_false]
      rcases hTry : insightTry apiKey f event with ⟨out, cs⟩
      rw [hTry] at hcalls
      simp at hcalls
      cases out <;> simpa using hcalls
    · intro v hv hnn
      have hmock := insightTry_no_key_mock apiKey f event v hkey hv hnn
      simp only [insightHandler, hm', Bool.false_eq_true, if_false]
      rcases hTry : insightTry apiKey f event with ⟨out, cs⟩
      rw [hTry] at hmock
      simp at hmock
      subst hmock
      simp
    · intro m hb
      simp [insightHandler, insightTry, parseBodyOrEmpty, hm', hb]

/-- C1 witness: a POST with no body and no API key gets the mock response
built from the default field values. -/
theorem c1_theorem_witness :
    (insightHandler none noFetch
      { httpMethod := "POST", body := .noBody, queryStringParameters := none }).response =
      { statusCode := 200, headers := insightHeaders
        body := .json (.jobj [
          ("analysis", .jstr (mockAnalysis .jnull .jnull .jnull .jnull)),
          ("mode", .jstr "mock")]) } :=
  (((c1_theorem none noFetch
    { httpMethod := "POST", body := .noBody, queryStringParameters := none } rfl).2
    (by decide)).1 (.jobj []) rfl (by simp))

/-- C3 counterexample: a POST body that is the valid JSON text null parses
to a value with neither field, yet the handler answers 500 (destructuring
throws), not the 400 the claim demands. -/
theorem c3_counterexample :
    (createSellerHandler envTest noFetch
      { httpMethod := "POST", body := .present (.ok .jnull)
        queryStringParameters := none }).response.statusCode = 500 ∧
    (createSellerHandler envTest noFetch
      { httpMethod := "POST", body := .present (.ok .jnull)
        queryStringParameters := none }).response.statusCode ≠ 400 := by
  exact ⟨rfl, by decide⟩

/-- C3 (amended): a POST whose body parses to a non-null value lacking a
truthy email or password gets the 400 response with no outbound call; when
the body parses to JSON null, destructuring throws and the handler answers
500, still with no outbound call. -/
theorem c3_theorem (env : Env) (f : Fetch) (event : Event) (v : Jval)
    (hm : event.httpMethod = "POST")
    (hv : parseBodyOrEmpty event.body = .ok v) :
    (v ≠ .jnull →
      (!(jget v "email").truthy || !(jget v "password").truthy) = true →
      (createSellerHandler env f event).response =
        { statusCode := 400, headers := []
          body := .json (.jobj [("error", .jstr "Email y contraseña son obligatorios")]) } ∧
      (createSellerHandler env f event).calls = []) ∧
    (v = .jnull →
      (createSellerHandler env f event).response.statusCode = 500 ∧
      (createSellerHandler env f event).calls = []) := by
  constructor
  · intro hnn hfields
    have hd := jdestructure2_ne_null v "email" "password" hnn
    constructor <;> simp [createSellerHandler, createSellerTry, hm, hv, hd, hfields]
  · intro hnull
    subst hnull
    constructor <;> simp [createSellerHandler, createSellerTry, hm, hv, jdestructure2]

/-- C3 witness: a POST whose body has an email but no password gets the
400 response. -/
theorem c3_theorem_witness :
    (createSellerHandler envTest noFetch
      { httpMethod := "POST"
        body := .present (.ok (.jobj [("email", .jstr "a@b.com")]))
        queryStringParameters := none }).response =
      { statusCode := 400, headers := []
        body := .json (.jobj [("error", .jstr "Email y contraseña son obligatorios")]) } :=
  ((c3_theorem envTest noFetch
    { httpMethod := "POST"
      body := .present (.ok (.jobj [("email", .jstr "a@b.com")]))
      queryStringParameters := none }
    (.jobj [("email", .jstr "a@b.com")]) rfl rfl).1 (by simp) rfl).1


/-- C4: when the creation call reports 422 or yields no identifier, the
handler performs the email lookup; when that lookup yields no identifier
either, the run stops with 422 and the unresolvable-identity error, the
profile upsert never being attempted. -/
theorem c4_theorem (env : Env) (f : Fetch) (event : Event) (su key : String)
    (v email password : Jval) (cres lres : FetchRes) (lookupJson : Jval)
    (hsu : env.SUPABASE_URL = some su) (hkeye : env.SUPABASE_SERVICE_ROLE_KEY = some key)
    (hsu2 : (su != "") = true) (hkey2 : (key != "") = true)
    (hm : event.httpMethod = "POST")
    (hv : parseBodyOrEmpty event.body = .ok v)
    (hd : jdestructure2 v "email" "password" = .ok (email, password))
    (he : email.truthy = true) (hp : password.truthy = true)
    (hc : f (createUserReq su key email password) = .ok cres)
    (hcond : (cres.status == 422 || !(createUserIdOf (createResJson cres)).truthy) = true)
    (hl : f (lookupUserReq su key email) = .ok lres)
    (hlp : lres.parsed = .ok lookupJson)
    (hlid : (lookupUserIdOf lookupJson).truthy = false) :
    (createSellerHandler env f event).response =
      { statusCode := 422, headers := []
        body := .json (.jobj [("error", .jstr "No se pudo obtener ID de usuario")]) } ∧
    (createSellerHandler env f event).calls =
      [createUserReq su key email password, lookupUserReq su key email] := by
  constructor <;>
    simp [createSellerHandler, createSellerTry, hm, hv, hd, he, hp, hsu, hkeye,
          hsu2, hkey2, optTruthy, hc, hcond, hl, hlp, hlid]

/-- C4 witness: a concrete conflict run on the test oracle — creation
answers 422, the email lookup answers an empty array, and the handler
performs exactly the two calls and returns 422. -/
theorem c4_theorem_witness :
    (createSellerHandler envTest oracleConflictEmptyLookup evCreatePost).response =
      { statusCode := 422, headers := []
        body := .json (.jobj [("error", .jstr "No se pudo obtener ID de usuario")]) } ∧
    (createSellerHandler envTest oracleConflictEmptyLookup evCreatePost).calls =
      [createUserReq "https://x.supabase.co" "k" (.jstr "a@b.com") (.jstr "secret1"),
       lookupUserReq "https://x.supabase.co" "k" (.jstr "a@b.com")] :=
  c4_theorem envTest oracleConflictEmptyLookup evCreatePost
    "https://x.supabase.co" "k"
    (.jobj [("email", .jstr "a@b.com"), ("password", .jstr "secret1")])
    (.jstr "a@b.com") (.jstr "secret1")
    { status := 422, text := "duplicate"
      parsed := .ok (.jobj [("msg", .jstr "User already registered")]) }
    { status := 200, text := "[]", parsed := .ok (.jarr []) }
    (.jarr [])
    rfl rfl rfl rfl rfl rfl rfl rfl rfl rfl rfl rfl rfl rfl


/-- Helper: the imperative per-seller loop of the GET branch computes the
spec-side filterMap join and issues one account lookup per profile, in
order, provided every profile is an object and no lookup rejects. -/
theorem listSellersLoop_eq_join (su key : String) (f : Fetch) (ps : List Jval)
    (hobj : ∀ p ∈ ps, ∃ fs, p = Jval.jobj fs)
    (hok : ∀ p ∈ ps, ∃ r, f (userGetReq su key (jget p "id")) = .ok r) :
    listSellersLoop su key f ps =
      (.ok (listJoinSpec su key f ps),
       ps.map fun p => userGetReq su key (jget p "id")) := by
  induction ps with
  | nil => rfl
  | cons p rest ih =>
    obtain ⟨fs, rfl⟩ := hobj p (List.mem_cons_self p rest)
    obtain ⟨r, hr⟩ := hok _ (List.mem_cons_self _ rest)
    have ih2 := ih (fun q hq => hobj q (List.mem_cons_of_mem _ hq))
                   (fun q hq => hok q (List.mem_cons_of_mem _ hq))
    have hdot : jdot (Jval.jobj fs) "id" = .ok (jget (Jval.jobj fs) "id") := rfl
    by_cases hcond : (r.ok && (supaData r).truthy) = true
    · obtain ⟨hro, htr⟩ := (Bool.and_eq_true _ _).mp hcond
      have hem := jdot_of_truthy (supaData r) "email" htr
      simp [listSellersLoop, listJoinSpec, List.filterMap_cons, Except.map, hdot,
            hr, hro, htr, hem, ih2]
    · have hcond2 : ¬ (r.ok = true ∧ (supaData r).truthy = true) := by
        simpa [Bool.and_eq_true] using hcond
      simp [listSellersLoop, listJoinSpec, List.filterMap_cons, hdot, hr, hcond2,
            ih2]

/-- C5: a GET on a configured environment whose profile query succeeds
with a list of object records, and whose per-profile account lookups all
complete, answers 200 with exactly the spec-side ordered join — one
id/email pair per profile whose lookup succeeded with truthy data, the
others silently omitted — and issues the profile query followed by one
lookup per profile. -/
theorem c5_theorem (env : Env) (f : Fetch) (event : Event) (su key : String)
    (pres : FetchRes) (ps : List Jval)
    (hsu : env.SUPABASE_URL = some su) (hkeye : env.SUPABASE_SERVICE_ROLE_KEY = some key)
    (hsu2 : (su != "") = true) (hkey2 : (key != "") = true)
    (hm : event.httpMethod = "GET")
    (hq : f (profilesListReq su key) = .ok pres)
    (hpok : pres.ok = true)
    (hdata : pres.parsed = .ok (.jarr ps))
    (hobj : ∀ p ∈ ps, ∃ fs, p = Jval.jobj fs)
    (hcalls : ∀ p ∈ ps, ∃ r, f (userGetReq su key (jget p "id")) = .ok r) :
    (manageSellerHandler env f event).outcome =
      .ok { statusCode := 200, headers := []
            body := .json (.jarr (listJoinSpec su key f ps)) } ∧
    (manageSellerHandler env f event).calls =
      profilesListReq su key :: (ps.map fun p => userGetReq su key (jget p "id")) := by
  have hloop := listSellersLoop_eq_join su key f ps hobj hcalls
  constructor <;>
    simp [manageSellerHandler, hsu, hkeye, hsu2, hkey2, optTruthy, hm, hq, hpok,
          supaData, hdata, jiterate, hloop]

/-- C5 witness: two seller profiles on the partial-failure oracle — the
first account lookup succeeds, the second fails with status 500 — so the
200 response lists exactly the first pair, in order, and one lookup per
profile was issued after the profile query.  The same theorem applied to
an empty profile list gives the empty sequence with 200. -/
theorem c5_theorem_witness :
    (manageSellerHandler envTest oracleListPartial
      { httpMethod := "GET", body := .noBody, queryStringParameters := none }).outcome =
      .ok { statusCode := 200, headers := []
            body := .json (.jarr [.jobj [("id", .jstr "u1"), ("email", .jstr "s1@x.com")]]) } :=
  (c5_theorem envTest oracleListPartial
    { httpMethod := "GET", body := .noBody, queryStringParameters := none }
    "https://x.supabase.co" "k"
    { status := 200, text := "..."
      parsed := .ok (.jarr [.jobj [("id", .jstr "u1")], .jobj [("id", .jstr "u2")]]) }
    [.jobj [("id", .jstr "u1")], .jobj [("id", .jstr "u2")]]
    rfl rfl rfl rfl rfl rfl rfl rfl
    (by intro p hp; fin_cases hp <;> exact ⟨_, rfl⟩)
    (by intro p hp; fin_cases hp <;> exact ⟨_, rfl⟩)).1

end EVPos
